import Mathlib

/-!
Shallow embedding of the client-side state-synchronization core of the
cloudquest task-board client: the task store (`src/stores/useTaskStore.ts`),
the board store (`src/stores/useBoardStore.ts`) and the permission
resolution in `src/components/Dashboard.tsx`.  Async store actions are
embedded as explicit phase functions: the synchronous prefix up to the first
awaited network call, the resolution continuation, and the rejection (catch)
continuation.  Network traffic is reified as `Request` values so theorems can
count the requests an operation issues.
-/

namespace CloudQuest

/-- TaskStatus from types.ts: 'TODO' | 'IN_PROGRESS' | 'DONE'. -/
inductive TaskStatus
  | TODO
  | IN_PROGRESS
  | DONE
deriving DecidableEq, Repr

/-- BoardRole from types.ts: "OWNER" | "EDITOR" | "VIEWER". -/
inductive BoardRole
  | OWNER
  | EDITOR
  | VIEWER
deriving DecidableEq, Repr

/-- UI task, interface Task in useTaskStore.ts (lines 6-16).  Optional
fields are `Option`; a missing field is `none`. -/
structure Task where
  id : String
  name : String
  status : TaskStatus
  assignedTo : List String
  description : Option String := none
  deadline : Option String := none
  userId : Option String := none
  updatedAt : Option String := none
  boardId : Option String := none
deriving DecidableEq, Repr

/-- Backend task, interface ApiTask in useTaskStore.ts (lines 18-27). -/
structure ApiTask where
  id : String
  boardId : String
  name : String
  description : Option String := none
  deadline : Option String := none
  status : TaskStatus
  updatedAt : Option String := none
  assignedTo : Option (List String) := none
deriving DecidableEq, Repr

/-- mapApiTaskToUiTask (useTaskStore.ts lines 55-66).  `t.assignedTo || []`
defaults a missing assignee list to the empty list. -/
def mapApiTaskToUiTask (t : ApiTask) : Task :=
  { id := t.id
    name := t.name
    status := t.status
    assignedTo := t.assignedTo.getD []
    description := t.description
    deadline := t.deadline
    boardId := some t.boardId
    updatedAt := t.updatedAt }

/-- The state slice owned by useTaskStore (lines 29-33 and 68-72). -/
structure TaskState where
  tasks : List Task
  boardId : Option String
  isLoading : Bool
  error : Option String
deriving DecidableEq, Repr

/-- Initial task-store state (useTaskStore.ts lines 69-72). -/
def initialTaskState : TaskState :=
  { tasks := [], boardId := none, isLoading := false, error := none }

/-- One HTTP request issued through axiosInstance by the embedded
operations. -/
inductive Request
  | getTasksByBoard (boardId : String)
  | getAssignees (taskId : String)
  | postTask (boardId : String) (name : String)
  | patchStatus (taskId : String) (status : TaskStatus)
  | patchReorder (boardId : String) (status : TaskStatus) (orderedTaskIds : List String)
deriving DecidableEq, Repr

/-- Outcome of an awaited network call: the server either answers with a
value or the request fails with a resolved error message. -/
inductive ServerOutcome (α : Type)
  | success (val : α)
  | failure (msg : String)
deriving DecidableEq, Repr

/-- fetchTasksByBoard, synchronous prefix (useTaskStore.ts lines 74-83).
An empty boardId short-circuits: no request, tasks cleared, boardId
cleared.  Otherwise the loading flags and the new boardId are set and the
GET is issued. -/
def fetchTasksByBoardStart (s : TaskState) (boardId : String) :
    TaskState × Option Request :=
  if boardId = "" then
    ({ s with tasks := [], boardId := none }, none)
  else
    ({ s with isLoading := true, error := none, boardId := some boardId },
      some (Request.getTasksByBoard boardId))

/-- fetchTasksByBoard, resolution of the GET (useTaskStore.ts lines 84-87).
The mapped tasks are committed unconditionally: the code performs no check
that the response still belongs to the currently active board. -/
def fetchTasksByBoardResolve (s : TaskState) (apiTasks : List ApiTask) : TaskState :=
  { s with tasks := apiTasks.map mapApiTaskToUiTask, isLoading := false }

/-- Per-task assignee sub-fetch resolution inside fetchTasksByBoard
(useTaskStore.ts lines 91-98). -/
def fetchAssigneesResolve (s : TaskState) (taskId : String) (ids : List String) :
    TaskState :=
  { s with tasks := s.tasks.map fun x =>
      if x.id == taskId then { x with assignedTo := ids } else x }

/-- fetchTasksByBoard, catch branch (useTaskStore.ts lines 104-108). -/
def fetchTasksByBoardReject (s : TaskState) (errorMessage : String) : TaskState :=
  { s with error := some errorMessage, isLoading := false }

/-- Events of the task store relevant to interleaved fetches.  A resolve or
reject event carries the boardId the corresponding GET was issued for; the
store's continuation receives only the response body. -/
inductive TaskEvent
  | fetchStart (boardId : String)
  | fetchResolve (boardId : String) (apiTasks : List ApiTask)
  | fetchReject (boardId : String) (msg : String)
  | assigneesResolve (taskId : String) (ids : List String)
deriving DecidableEq, Repr

/-- Effect of one event on the task-store state, each case delegating to the
phase function embedded from the source.  Note that `fetchResolve` ignores
the boardId the response was for, exactly as the code does. -/
def stepTask (s : TaskState) (e : TaskEvent) : TaskState :=
  match e with
  | .fetchStart b => (fetchTasksByBoardStart s b).1
  | .fetchResolve _ apiTasks => fetchTasksByBoardResolve s apiTasks
  | .fetchReject _ msg => fetchTasksByBoardReject s msg
  | .assigneesResolve t ids => fetchAssigneesResolve s t ids

/-- Run a sequence of task-store events from a state. -/
def runTaskEvents (s : TaskState) (es : List TaskEvent) : TaskState :=
  es.foldl stepTask s

/-- createTask, validation and synchronous prefix (useTaskStore.ts lines
113-123).  A name that trims to empty throws before any state write and
before any network call. -/
def createTaskStart (s : TaskState) (boardId : String) (name : String) :
    Except String (TaskState × Request) :=
  let trimmed := name.trim
  if trimmed = "" then Except.error "Task name is required"
  else Except.ok ({ s with isLoading := true, error := none },
    Request.postTask boardId trimmed)

/-- createTask, resolution of the POST (useTaskStore.ts lines 125-129): the
server's task is mapped and prepended. -/
def createTaskResolve (s : TaskState) (apiTask : ApiTask) : TaskState × Task :=
  let uiTask := mapApiTaskToUiTask apiTask
  ({ s with tasks := uiTask :: s.tasks, isLoading := false }, uiTask)

/-- createTask, catch branch (useTaskStore.ts lines 130-136). -/
def createTaskReject (s : TaskState) (errorMessage : String) : TaskState :=
  { s with error := some errorMessage, isLoading := false }

/-- Whole run of createTask against a server outcome: final state, issued
requests, and the returned task or thrown error. -/
def createTaskRun (s : TaskState) (boardId : String) (name : String)
    (outcome : ServerOutcome ApiTask) :
    TaskState × List Request × Except String Task :=
  match createTaskStart s boardId name with
  | .error e => (s, [], Except.error e)
  | .ok (s1, req) =>
    match outcome with
    | .success apiTask =>
      let (s2, uiTask) := createTaskResolve s1 apiTask
      (s2, [req], Except.ok uiTask)
    | .failure msg => (createTaskReject s1 msg, [req], Except.error msg)

/-- updateTaskStatus, synchronous prefix (useTaskStore.ts lines 187-191).
Only the loading flags are written; the cached tasks are untouched before
the PATCH is awaited. -/
def updateTaskStatusStart (s : TaskState) (taskId : String) (status : TaskStatus) :
    TaskState × Request :=
  ({ s with isLoading := true, error := none }, Request.patchStatus taskId status)

/-- updateTaskStatus, resolution of the PATCH (useTaskStore.ts lines
193-196): the matching task's status is rewritten in the cache. -/
def updateTaskStatusResolve (s : TaskState) (taskId : String) (status : TaskStatus) :
    TaskState :=
  { s with
    tasks := s.tasks.map fun t => if t.id == taskId then { t with status := status } else t
    isLoading := false }

/-- updateTaskStatus, catch branch (useTaskStore.ts lines 197-203): the
error is recorded; the cached tasks are not touched. -/
def updateTaskStatusReject (s : TaskState) (errorMessage : String) : TaskState :=
  { s with error := some errorMessage, isLoading := false }

/-- Whole run of updateTaskStatus against a server outcome.  The PATCH is
issued unconditionally: the code never consults the cached status. -/
def updateTaskStatusRun (s : TaskState) (taskId : String) (status : TaskStatus)
    (outcome : ServerOutcome Unit) : TaskState × List Request :=
  let sp := updateTaskStatusStart s taskId status
  match outcome with
  | .success _ => (updateTaskStatusResolve sp.1 taskId status, [sp.2])
  | .failure msg => (updateTaskStatusReject sp.1 msg, [sp.2])

/-- reorderColumn (useTaskStore.ts lines 265-283).  The guard on line 270
(`if (!boardId || !orderedTaskIds?.length) return;`) short-circuits before
the PATCH; no branch of the function writes the cached state. -/
def reorderColumnRun (s : TaskState) (boardId : String) (status : TaskStatus)
    (orderedTaskIds : List String) (outcome : ServerOutcome Unit) :
    TaskState × List Request × Except String Unit :=
  if boardId = "" ∨ orderedTaskIds.length = 0 then (s, [], Except.ok ())
  else
    match outcome with
    | .success _ =>
      (s, [Request.patchReorder boardId status orderedTaskIds], Except.ok ())
    | .failure msg =>
      (s, [Request.patchReorder boardId status orderedTaskIds], Except.error msg)

/-- Status of the task with the given id in the cached slice, if present. -/
def cachedStatus (s : TaskState) (taskId : String) : Option TaskStatus :=
  (s.tasks.find? fun t => t.id == taskId).map Task.status

/-- BoardMember from types.ts (name and email are display data). -/
structure BoardMember where
  userId : String
  role : BoardRole
  name : Option String := none
  email : Option String := none
deriving DecidableEq, Repr

/-- Board from useBoardStore.ts (lines 7-13); `members` is optional on the
wire and in the cache.  The optional display field `type` is not modelled:
no claim mentions it. -/
structure Board where
  id : String
  name : String
  ownerId : String
  members : Option (List BoardMember) := none
deriving DecidableEq, Repr

/-- Board as it appears in the fetchBoards response: scalar fields always
present, `members` possibly omitted (useBoardStore.ts line 105). -/
structure ApiBoard where
  id : String
  name : String
  ownerId : String
  members : Option (List BoardMember) := none
deriving DecidableEq, Repr

/-- JS `new Map(boards.map(b => [b.id, b])).get(id)` (useBoardStore.ts line
108): for duplicate ids the LAST entry wins. -/
def mapGetById (boards : List Board) (id : String) : Option Board :=
  boards.reverse.find? fun b => b.id == id

/-- One merged entry of fetchBoards (useBoardStore.ts lines 110-115):
`const members = b.members ?? prev?.members ?? []` and then
`{ ...prev, ...b, members }`, whose scalar fields are the incoming ones. -/
def mergeBoardEntry (prevBoards : List Board) (b : ApiBoard) : Board :=
  { id := b.id
    name := b.name
    ownerId := b.ownerId
    members := some (b.members.getD
      (((mapGetById prevBoards b.id).bind Board.members).getD [])) }

/-- fetchBoards merge step (useBoardStore.ts lines 107-119): the new boards
slice is the response list, each entry merged against the previous cache. -/
def fetchBoardsMerge (prevBoards : List Board) (incoming : List ApiBoard) :
    List Board :=
  incoming.map (mergeBoardEntry prevBoards)

/-- Dashboard.tsx line 624: `const members = activeBoard?.members || []`. -/
def boardMembers (b : Board) : List BoardMember :=
  b.members.getD []

/-- Effective role, Dashboard.tsx lines 626-630:
`members.find(m => m.userId === currentUser?.id)?.role ??
 (isOwnerById ? "OWNER" : "VIEWER")`. -/
def userRole (board : Board) (userId : String) : BoardRole :=
  (((boardMembers board).find? fun m => m.userId == userId).map BoardMember.role).getD
    (if board.ownerId == userId then BoardRole.OWNER else BoardRole.VIEWER)

/-- Dashboard.tsx line 632: `canModify = userRole === "OWNER" || userRole === "EDITOR"`. -/
def canModify (board : Board) (userId : String) : Bool :=
  (userRole board userId == BoardRole.OWNER) || (userRole board userId == BoardRole.EDITOR)

/-- The role formula as the spec (section 4.1) words it, for comparison with
the code's `userRole`: `role = isOwner ? OWNER : (membership lookup by
userId)?.role ?? VIEWER`. -/
def specResolveRole (board : Board) (userId : String) : BoardRole :=
  if board.ownerId == userId then BoardRole.OWNER
  else (((boardMembers board).find? fun m => m.userId == userId).map BoardMember.role).getD
    BoardRole.VIEWER

/-- Amended role formula: the membership entry takes precedence, ownership
is only the fallback when the user has no membership entry. -/
def amendedResolveRole (board : Board) (userId : String) : BoardRole :=
  match (boardMembers board).find? fun m => m.userId == userId with
  | some m => m.role
  | none => if board.ownerId == userId then BoardRole.OWNER else BoardRole.VIEWER

/-! Concrete fixtures used by counterexamples and witnesses. -/

/-- A backend task belonging to board b1. -/
def b1ApiTask : ApiTask :=
  { id := "t-b1", boardId := "b1", name := "task on b1", status := TaskStatus.TODO }

/-- A cached task already in status DONE. -/
def doneTask : Task :=
  { id := "t1", name := "ship it", status := TaskStatus.DONE, assignedTo := [] }

/-- A cached task in status TODO. -/
def todoTask : Task :=
  { id := "t1", name := "ship it", status := TaskStatus.TODO, assignedTo := [] }

/-- Task-store state whose task t1 is already DONE. -/
def doneState : TaskState :=
  { tasks := [doneTask], boardId := some "b", isLoading := false, error := none }

/-- Task-store state whose task t1 is still TODO. -/
def todoState : TaskState :=
  { tasks := [todoTask], boardId := some "b1", isLoading := false, error := none }

/-- The interleaving of claim C1: fetch for b1 issued, board switched to b2,
then b1's response arrives. -/
def staleFetchTrace : List TaskEvent :=
  [TaskEvent.fetchStart "b1", TaskEvent.fetchStart "b2",
   TaskEvent.fetchResolve "b1" [b1ApiTask]]

/-- C1: the claim says a fetch response that arrives after the active board
switched from b1 to b2 is never committed, so the tasks slice never holds
b1's tasks while boardId is b2.  The code has no such reconciliation check:
running the interleaving (start fetch for b1, switch to b2, b1's response
resolves) leaves boardId = b2 while the tasks slice holds exactly b1's
task.  The first conjunct confirms the b1 fetch really issued a request, so
the interleaving is realizable. -/
theorem fetchTasksByBoard_stale_response_commits :
    (fetchTasksByBoardStart initialTaskState "b1").2 =
      some (Request.getTasksByBoard "b1") ∧
    (runTaskEvents initialTaskState staleFetchTrace).boardId = some "b2" ∧
    (runTaskEvents initialTaskState staleFetchTrace).tasks =
      [mapApiTaskToUiTask b1ApiTask] ∧
    (mapApiTaskToUiTask b1ApiTask).boardId = some "b1" := by
  refine ⟨rfl, rfl, rfl, rfl⟩

/-- C2: the claim says that once the cached status already equals the
target, a second updateTaskStatus call issues no network request.  The code
never consults the cached status: with t1 already DONE, each of two
successive updateTaskStatus(t1, DONE) calls issues its own PATCH, two
requests in total. -/
theorem updateTaskStatus_always_issues_request :
    cachedStatus doneState "t1" = some TaskStatus.DONE ∧
    (updateTaskStatusRun doneState "t1" TaskStatus.DONE (ServerOutcome.success ())).2 =
      [Request.patchStatus "t1" TaskStatus.DONE] ∧
    (updateTaskStatusRun
        (updateTaskStatusRun doneState "t1" TaskStatus.DONE (ServerOutcome.success ())).1
        "t1" TaskStatus.DONE (ServerOutcome.success ())).2 =
      [Request.patchStatus "t1" TaskStatus.DONE] := by
  refine ⟨rfl, rfl, rfl⟩

/-- C4: if the PATCH issued by updateTaskStatus fails, the task's cached
status after the rejection equals its value from before the call — the
tasks slice is written by neither the synchronous prefix nor the catch
branch. -/
theorem updateTaskStatus_failure_preserves_status (s : TaskState) (taskId : String)
    (status : TaskStatus) (msg : String) :
    cachedStatus (updateTaskStatusRun s taskId status (ServerOutcome.failure msg)).1 taskId =
      cachedStatus s taskId := rfl

/-- C9 counterexample: the claim says fetchTasksByBoard("") leaves the
task-store state unchanged.  It does issue no request, but on a state with
a cached task it clears the slice: the resulting state differs from the
input state. -/
theorem fetchTasksByBoard_empty_cex :
    (fetchTasksByBoardStart todoState "").2 = none ∧
    (fetchTasksByBoardStart todoState "").1 ≠ todoState := by
  refine ⟨rfl, by decide⟩

/-- C9 amended: fetchTasksByBoard with an empty boardId issues no network
request and leaves isLoading and error unchanged, but it clears the slice:
tasks becomes empty and boardId becomes null. -/
theorem fetchTasksByBoard_empty_clears (s : TaskState) :
    (fetchTasksByBoardStart s "").2 = none ∧
    (fetchTasksByBoardStart s "").1.tasks = [] ∧
    (fetchTasksByBoardStart s "").1.boardId = none ∧
    (fetchTasksByBoardStart s "").1.isLoading = s.isLoading ∧
    (fetchTasksByBoardStart s "").1.error = s.error := by
  refine ⟨rfl, rfl, rfl, rfl, rfl⟩

/-- C10: reorderColumn with an empty boardId or an empty ordering returns
successfully without issuing any request and without touching the
task-store state. -/
theorem reorderColumn_guard (s : TaskState) (boardId : String) (status : TaskStatus)
    (outcome : ServerOutcome Unit) (ids : List String)
    (h : ids = [] ∨ boardId = "") :
    reorderColumnRun s boardId status ids outcome = (s, [], Except.ok ()) := by
  rcases h with h | h <;> subst h <;> simp [reorderColumnRun]

/-- C10 witness: reorderColumn on an empty ordering is the identity on the
state and issues no request. -/
theorem reorderColumn_guard_witness :
    reorderColumnRun initialTaskState "b" TaskStatus.TODO [] (ServerOutcome.success ()) =
      (initialTaskState, [], Except.ok ()) :=
  reorderColumn_guard initialTaskState "b" TaskStatus.TODO (ServerOutcome.success ())
    [] (Or.inl rfl)

/-- Rewriting one task's status commutes with looking that task up: the map
performed by updateTaskStatusResolve preserves ids, so the lookup finds the
same element, now carrying the new status. -/
theorem find_map_status (l : List Task) (taskId : String) (status : TaskStatus) :
    ((l.map fun t => if t.id == taskId then { t with status := status } else t).find?
        fun t => t.id == taskId)
      = (l.find? fun t => t.id == taskId).map fun t => { t with status := status } := by
  induction l with
  | nil => rfl
  | cons hd tl ih =>
    cases h : hd.id == taskId with
    | false =>
      rw [List.map_cons, if_neg (by simp [h]),
        List.find?_cons_of_neg _ (by simp [h]), List.find?_cons_of_neg _ (by simp [h]), ih]
    | true =>
      rw [List.map_cons, if_pos (by simp [h]),
        List.find?_cons_of_pos _ (by simp [h]), List.find?_cons_of_pos _ (by simp [h])]
      rfl

/-- After updateTaskStatusResolve the looked-up status of the target task is
the new status whenever the task is cached, and stays absent otherwise. -/
theorem cachedStatus_resolve (s : TaskState) (taskId : String) (status : TaskStatus) :
    cachedStatus (updateTaskStatusResolve s taskId status) taskId =
      (cachedStatus s taskId).map fun _ => status := by
  simp only [cachedStatus, updateTaskStatusResolve, find_map_status]
  cases s.tasks.find? fun t => t.id == taskId <;> rfl

/-- C3 counterexample: the claim says the cached status already equals the
target at the suspension point, before the PATCH resolves.  With t1 cached
as TODO, after the synchronous prefix of updateTaskStatus(t1, DONE) the
cache still reads TODO, not DONE. -/
theorem updateTaskStatus_not_optimistic_cex :
    cachedStatus (updateTaskStatusStart todoState "t1" TaskStatus.DONE).1 "t1" =
      some TaskStatus.TODO ∧
    some TaskStatus.TODO ≠ some TaskStatus.DONE := by
  refine ⟨rfl, by decide⟩

/-- C3 amended: updateTaskStatus is confirm-then-apply, not optimistic.  At
the suspension point (after the synchronous prefix, while the PATCH is in
flight) the cached tasks are exactly the tasks from before the call; only
when the server call resolves successfully does the target task's cached
status become the target status. -/
theorem updateTaskStatus_confirm_then_apply (s : TaskState) (taskId : String)
    (status : TaskStatus) :
    (updateTaskStatusStart s taskId status).1.tasks = s.tasks ∧
    cachedStatus
        (updateTaskStatusResolve (updateTaskStatusStart s taskId status).1 taskId status)
        taskId
      = (cachedStatus s taskId).map fun _ => status := by
  exact ⟨rfl, cachedStatus_resolve _ taskId status⟩

/-- C5: permission resolution is default-deny — a user who is not the owner
and has no membership entry resolves to VIEWER with canModify false. -/
theorem userRole_default_deny (board : Board) (userId : String)
    (howner : board.ownerId ≠ userId)
    (hmem : ∀ m ∈ boardMembers board, m.userId ≠ userId) :
    userRole board userId = BoardRole.VIEWER ∧ canModify board userId = false := by
  have hfind : ((boardMembers board).find? fun m => m.userId == userId) = none := by
    rw [List.find?_eq_none]
    intro m hm
    simpa using hmem m hm
  have hrole : userRole board userId = BoardRole.VIEWER := by
    simp [userRole, hfind, howner]
  exact ⟨hrole, by simp [canModify, hrole]⟩

/-- A board owned by u1 with u2 as its only listed member. -/
def strangerBoard : Board :=
  { id := "b", name := "Board", ownerId := "u1",
    members := some [{ userId := "u2", role := BoardRole.EDITOR }] }

/-- C5 witness: the unlisted non-owner u3 resolves to VIEWER and cannot
modify. -/
theorem userRole_default_deny_witness :
    userRole strangerBoard "u3" = BoardRole.VIEWER ∧
    canModify strangerBoard "u3" = false :=
  userRole_default_deny strangerBoard "u3" (by decide) (by decide)

/-- A board whose owner u1 is also listed in members with role VIEWER. -/
def ownerListedViewerBoard : Board :=
  { id := "b1", name := "Board", ownerId := "u1",
    members := some [{ userId := "u1", role := BoardRole.VIEWER }] }

/-- C6 counterexample: the claim says ownership takes precedence, so the
owner resolves to OWNER regardless of any membership entry (the spec
formula).  On a board whose owner is listed as a VIEWER member, the spec
formula yields OWNER but the code resolves the membership entry first and
yields VIEWER. -/
theorem userRole_owner_precedence_cex :
    specResolveRole ownerListedViewerBoard "u1" = BoardRole.OWNER ∧
    userRole ownerListedViewerBoard "u1" = BoardRole.VIEWER := by
  refine ⟨rfl, rfl⟩

/-- C6 amended: membership takes precedence over ownership — the resolved
role is the role of the user's membership entry when one exists (even for
the owner); only for a user with no membership entry does ownership decide
(OWNER if owner, VIEWER otherwise). -/
theorem userRole_membership_precedence (board : Board) (userId : String) :
    userRole board userId = amendedResolveRole board userId := by
  unfold userRole amendedResolveRole
  cases (boardMembers board).find? fun m => m.userId == userId <;> rfl

/-- C7: createTask validates before any network call and defers to the
server for identity.  A name that trims to empty produces the thrown
validation error, issues no request and leaves the cached tasks unchanged;
a name with non-empty trim issues exactly the POST, and on success the
server's task — keeping the server-assigned id — is prepended.  The last
conjunct shows the cache is still unchanged at the suspension point, so the
prepend happens only after the server acknowledges. -/
theorem createTask_validates_and_defers (s : TaskState) (boardId : String)
    (name : String) (apiTask : ApiTask) :
    ((createTaskRun s boardId name (ServerOutcome.success apiTask)).2.1 =
      if name.trim = "" then [] else [Request.postTask boardId name.trim]) ∧
    ((createTaskRun s boardId name (ServerOutcome.success apiTask)).1.tasks =
      if name.trim = "" then s.tasks else mapApiTaskToUiTask apiTask :: s.tasks) ∧
    ((createTaskRun s boardId name (ServerOutcome.success apiTask)).2.2 =
      if name.trim = "" then Except.error "Task name is required"
      else Except.ok (mapApiTaskToUiTask apiTask)) ∧
    (mapApiTaskToUiTask apiTask).id = apiTask.id ∧
    ((match createTaskStart s boardId name with
      | .error _ => s.tasks
      | .ok p => p.1.tasks) = s.tasks) := by
  by_cases h : name.trim = "" <;>
    simp [createTaskRun, createTaskStart, createTaskResolve, mapApiTaskToUiTask, h]

/-- A cached board carrying known member data. -/
def cachedBoard : Board :=
  { id := "b1", name := "Board 1", ownerId := "u1",
    members := some [{ userId := "u2", role := BoardRole.EDITOR }] }

/-- A fetchBoards response entry for the same board with members omitted. -/
def memberlessResponse : ApiBoard :=
  { id := "b1", name := "Board 1 renamed", ownerId := "u1", members := none }

/-- C8: fetchBoards never erases known member data.  Every response entry
contributes its merged board to the new slice; the merged board keeps the
response's id, and its members are the fresh list when the response carries
one, the previously-cached list when the response omits members and the
cache had one, and empty only when neither side has members. -/
theorem fetchBoards_preserves_members (prevBoards : List Board)
    (incoming : List ApiBoard) (b : ApiBoard) (hb : b ∈ incoming) :
    mergeBoardEntry prevBoards b ∈ fetchBoardsMerge prevBoards incoming ∧
    (mergeBoardEntry prevBoards b).id = b.id ∧
    (mergeBoardEntry prevBoards b).members =
      some (match b.members, (mapGetById prevBoards b.id).bind Board.members with
            | some fresh, _ => fresh
            | none, some cached => cached
            | none, none => []) := by
  refine ⟨List.mem_map_of_mem _ hb, rfl, ?_⟩
  cases hbm : b.members <;>
    cases hpm : (mapGetById prevBoards b.id).bind Board.members <;>
      simp [mergeBoardEntry, hbm, hpm]

/-- C8 witness: a members-less response entry for b1 merges into a board
that keeps b1's previously-cached members. -/
theorem fetchBoards_preserves_members_witness :
    mergeBoardEntry [cachedBoard] memberlessResponse ∈
      fetchBoardsMerge [cachedBoard] [memberlessResponse] ∧
    (mergeBoardEntry [cachedBoard] memberlessResponse).members =
      some [{ userId := "u2", role := BoardRole.EDITOR }] := by
  have h := fetchBoards_preserves_members [cachedBoard] [memberlessResponse]
    memberlessResponse (List.mem_singleton.mpr rfl)
  exact ⟨h.1, h.2.2⟩

end CloudQuest
